import Mathlib

/-!
# Grand Prix ticket-booking system: a shallow embedding

This file embeds the domain model of a small ticket-booking program
(tickets, orders, users/admins, and a booking-system facade with flat-file
persistence) and proves properties of its pricing rules, order state
machine, validation behaviour, and the equivalence of the two copies of
the domain model that the program carries (a console variant in
`grand_prix_classes.py`, embedded below in namespace `classes`, and a GUI
variant in `grand_prix_admin_gui.py`, embedded in namespace `gui`).

Modelling conventions:
* Python `float` prices are modelled as `ℚ`; the pricing code only
  multiplies by the literals 1.2, 0.9, 0.8, 0.7, which are exact here.
* Python `datetime.date` is modelled as a year/month/day triple compared
  lexicographically (`PyDate.ltb`), which is how Python compares dates.
  `date.today()` becomes an explicit `today` parameter.
* Methods that mutate `self` become functions returning the updated
  value; methods that `raise` return `Except String`; methods returning a
  bool while mutating return a pair.
* Python object references that would be cyclic (a ticket's `created_by`
  admin, a user's order list) are flattened to identifiers; no claim
  below depends on more than their presence.
* Python `dict`s keyed by strings are association lists; the operations
  embedded here only ever insert fresh keys, which is an append.
-/

/-- The three race categories (identical declarations in both program
variants). -/
inductive RaceCategory
  | premium
  | standard
  | economy
deriving DecidableEq, Repr

/-- Order lifecycle states (identical in both variants). -/
inductive OrderStatus
  | pending
  | confirmed
  | cancelled
deriving DecidableEq, Repr

/-- Accepted payment methods (identical in both variants). -/
inductive PaymentMethod
  | credit_card
  | debit_card
  | digital_wallet
deriving DecidableEq, Repr

/-- A Python `datetime.date`: year, month, day. -/
structure PyDate where
  year : Int
  month : Int
  day : Int
deriving DecidableEq, Repr

/-- Python compares dates lexicographically by (year, month, day); this is
`a < b` on dates. -/
def PyDate.ltb (a b : PyDate) : Bool :=
  if a.year ≠ b.year then a.year < b.year
  else if a.month ≠ b.month then a.month < b.month
  else a.day < b.day

namespace classes

/-- The variant payload distinguishing the two concrete ticket classes of
the console file (`Ticket` itself is abstract there: only
`SingleRaceTicket` and `SeasonTicket` can be instantiated). -/
inductive TicketKind
  | singleRace (race_name : String) (race_category : RaceCategory)
  | season (season_year : Int) (included_races : List String) (race_dates : List PyDate)
deriving DecidableEq, Repr

/-- State of a ticket object: the fields set by `Ticket.__init__` plus the
subclass payload. `created_by` holds the creating admin's user id (the
Python code stores a reference to the Admin object). -/
structure Ticket where
  ticket_id : String
  price : ℚ
  event_date : PyDate
  venue_section : String
  is_used : Bool
  created_by : Option String
  kind : TicketKind
deriving DecidableEq, Repr

/-- Python `SingleRaceTicket.__init__`: no validation, `is_used` starts false,
`created_by` starts `None`. -/
def SingleRaceTicket.init (ticket_id : String) (price : ℚ) (event_date : PyDate)
    (venue_section : String) (race_name : String) (race_category : RaceCategory) : Ticket :=
  { ticket_id, price, event_date, venue_section, is_used := false, created_by := none,
    kind := .singleRace race_name race_category }

/-- Python `SeasonTicket.__init__`: no validation; a `None` race-dates argument
becomes the empty list (`race_dates if race_dates else []`). -/
def SeasonTicket.init (ticket_id : String) (price : ℚ) (event_date : PyDate)
    (venue_section : String) (season_year : Int) (included_races : List String)
    (race_dates : List PyDate) : Ticket :=
  { ticket_id, price, event_date, venue_section, is_used := false, created_by := none,
    kind := .season season_year included_races race_dates }

/-- Python `Ticket.set_price`: rejects a negative price, otherwise stores it. -/
def Ticket.set_price (t : Ticket) (price : ℚ) : Except String Ticket :=
  if price < 0 then .error "Price cannot be negative"
  else .ok { t with price := price }

/-- Python `calculate_price` as dispatched over the two concrete classes:
`SingleRaceTicket.calculate_price` multiplies the base price by a
category factor; `SeasonTicket.calculate_price` applies a discount tier
keyed on the number of included races. -/
def Ticket.calculate_price (t : Ticket) : ℚ :=
  match t.kind with
  | .singleRace _ race_category =>
    match race_category with
    | .premium => t.price * 1.2
    | .standard => t.price
    | .economy => t.price * 0.9
  | .season _ included_races _ =>
    let num_races := included_races.length
    if num_races ≥ 15 then t.price * 0.7
    else if num_races ≥ 10 then t.price * 0.8
    else if num_races ≥ 5 then t.price * 0.9
    else t.price

/-- State of an `Order` object. -/
structure Order where
  order_id : String
  order_date : PyDate
  status : OrderStatus
  total_amount : ℚ
  payment_method : Option PaymentMethod
  tickets : List Ticket
  user_id : Option String
deriving DecidableEq, Repr

/-- Python `Order.__init__`: defaults are status `PENDING`, total `0.0`, no
payment method; the ticket list starts empty and `user_id` is `None`. -/
def Order.init (order_id : String) (order_date : PyDate)
    (status : OrderStatus := .pending) (total_amount : ℚ := 0)
    (payment_method : Option PaymentMethod := none) : Order :=
  { order_id, order_date, status, total_amount, payment_method,
    tickets := [], user_id := none }

/-- Python `Order.calculate_total`: sum of `calculate_price()` over the order's
tickets. -/
def Order.calculate_total (o : Order) : ℚ :=
  (o.tickets.map Ticket.calculate_price).sum

/-- Python `Order.add_ticket`: raises on a confirmed order; otherwise appends the
ticket and recomputes the total. -/
def Order.add_ticket (o : Order) (t : Ticket) : Except String Order :=
  if o.status = .confirmed then .error "Cannot add tickets to a confirmed order"
  else
    let o2 := { o with tickets := o.tickets ++ [t] }
    .ok { o2 with total_amount := o2.calculate_total }

/-- Drop the first ticket whose id matches, as the `for`/`pop(i)` loop in
`Order.remove_ticket` does; `none` when no ticket matches. -/
def removeFirstById : List Ticket → String → Option (List Ticket)
  | [], _ => none
  | t :: ts, tid =>
    if t.ticket_id = tid then some ts
    else (removeFirstById ts tid).map (t :: ·)

/-- Python `Order.remove_ticket`: returns `False` on a confirmed order or when no
ticket has the given id; otherwise removes the first match, recomputes
the total, and returns `True`. -/
def Order.remove_ticket (o : Order) (ticket_id : String) : Bool × Order :=
  if o.status = .confirmed then (false, o)
  else
    match removeFirstById o.tickets ticket_id with
    | some ts =>
      let o2 := { o with tickets := ts }
      (true, { o2 with total_amount := o2.calculate_total })
    | none => (false, o)

/-- Python `Order.confirm_order`: fails on an empty ticket list (`if not
self.__tickets`) or a missing payment method; otherwise sets the status
to `CONFIRMED` and returns `True`. -/
def Order.confirm_order (o : Order) : Bool × Order :=
  if o.tickets = [] then (false, o)
  else if o.payment_method = none then (false, o)
  else (true, { o with status := .confirmed })

/-- Python `Order.cancel_order`: fails if any ticket is used, then if any
ticket's event date is before `today`; otherwise sets the status to
`CANCELLED` and returns `True`. The status is never consulted. -/
def Order.cancel_order (o : Order) (today : PyDate) : Bool × Order :=
  if o.tickets.any (fun t => t.is_used) then (false, o)
  else if o.tickets.any (fun t => PyDate.ltb t.event_date today) then (false, o)
  else (true, { o with status := .cancelled })

end classes

/-- State of a `User` object (both variants store the same scalar fields;
`User.__init__` performs no validation on any of them). `admin_info` is
present exactly on `Admin` instances. `orders` flattens the Python list
of order references to order ids. -/
structure UserRec where
  user_id : String
  username : String
  password : String
  email : String
  phone_number : Option String
  orders : List String
  admin_info : Option (Int × String)
deriving DecidableEq, Repr

/-- Python `User.__init__` / `Admin.__init__`: fields stored directly, no
validation (in particular the password-length and admin-level checks of
the setters are NOT run). -/
def UserRec.init (user_id username password email : String)
    (phone_number : Option String) (admin_info : Option (Int × String) := none) : UserRec :=
  { user_id, username, password, email, phone_number, orders := [], admin_info }

/-- Python `User.set_password`: rejects passwords shorter than 6 characters. -/
def UserRec.set_password (u : UserRec) (password : String) : Except String UserRec :=
  if password.length < 6 then .error "Password must be at least 6 characters long"
  else .ok { u with password := password }

namespace classes

/-- Python `Admin.create_ticket`: the factory method. Keyword arguments are
modelled as `Option`s (absent = not supplied); `admin_id` is the id of
the admin on which the method is invoked, stamped into `created_by`.
A missing race name defaults to `""` and is then rejected (`if not
race_name`); a missing category defaults to Standard; a missing season
year defaults to the event date's year; missing race lists default to
empty. An unknown ticket type raises. The price is passed through
without validation. -/
def Admin.create_ticket (admin_id : String) (ticket_type : String) (ticket_id : String)
    (price : ℚ) (event_date : PyDate) (venue_section : String)
    (race_name : Option String := none) (race_category : Option RaceCategory := none)
    (season_year : Option Int := none) (included_races : Option (List String) := none)
    (race_dates : Option (List PyDate) := none) : Except String Ticket :=
  if ticket_type = "SingleRace" then
    let rn := race_name.getD ""
    if rn = "" then .error "Race name is required for SingleRaceTicket"
    else
      let rc := race_category.getD .standard
      .ok { SingleRaceTicket.init ticket_id price event_date venue_section rn rc with
              created_by := some admin_id }
  else if ticket_type = "Season" then
    let sy := season_year.getD event_date.year
    let ir := included_races.getD []
    let rd := race_dates.getD []
    .ok { SeasonTicket.init ticket_id price event_date venue_section sy ir rd with
            created_by := some admin_id }
  else .error "Invalid ticket type"

/-- The in-memory collections of `BookingSystem` (console variant):
users and admins keyed by username, tickets by id, orders by id. -/
structure BookingState where
  users : List (String × UserRec)
  admins : List (String × UserRec)
  tickets : List (String × Ticket)
  orders : List (String × Order)
deriving DecidableEq, Repr

/-- The collections as `BookingSystem.__init__` sets them up before
`load_data` runs: all empty. -/
def BookingState.empty : BookingState :=
  { users := [], admins := [], tickets := [], orders := [] }

/-- The on-disk snapshot files of the data directory: `none` when the
file does not exist, `some` the pickled mapping otherwise. -/
structure DiskState where
  users : Option (List (String × UserRec))
  admins : Option (List (String × UserRec))
  tickets : Option (List (String × Ticket))
  orders : Option (List (String × Order))
deriving DecidableEq, Repr

/-- A data directory with no snapshot files at all. -/
def DiskState.empty : DiskState :=
  { users := none, admins := none, tickets := none, orders := none }

/-- Python `BookingSystem.save_data`: writes every collection to its snapshot
file (I/O failure is not modelled; the claims below do not concern it). -/
def save_data (s : BookingState) (_d : DiskState) : DiskState :=
  { users := some s.users, admins := some s.admins,
    tickets := some s.tickets, orders := some s.orders }

/-- Python `BookingSystem.create_user`: rejects a duplicate username, otherwise
constructs the `User` (no password validation happens on this path),
stores it under its username, and saves. Returns the created user with
the updated state. -/
def create_user (s : BookingState) (d : DiskState) (user_id username password email : String)
    (phone_number : Option String := none) :
    Except String (UserRec × BookingState × DiskState) :=
  if (s.users.lookup username).isSome then
    .error ("Username " ++ username ++ " already exists")
  else
    let user := UserRec.init user_id username password email phone_number
    let s2 := { s with users := s.users ++ [(username, user)] }
    .ok (user, s2, save_data s2 d)

/-- Python `BookingSystem.create_admin`: like `create_user` but the record is an
`Admin` (admin level and department attached) and it is stored in both
the user and the admin tables. -/
def create_admin (s : BookingState) (d : DiskState) (user_id username password email : String)
    (admin_level : Int) (department : String) (phone_number : Option String := none) :
    Except String (UserRec × BookingState × DiskState) :=
  if (s.users.lookup username).isSome then
    .error ("Username " ++ username ++ " already exists")
  else
    let admin := UserRec.init user_id username password email phone_number
      (some (admin_level, department))
    let s2 := { s with users := s.users ++ [(username, admin)],
                       admins := s.admins ++ [(username, admin)] }
    .ok (admin, s2, save_data s2 d)

/-- The tail of `load_data` after the admins branch: load the tickets and
orders snapshots when their files exist. -/
def loadTicketsOrders (s : BookingState) (d : DiskState) : BookingState :=
  let s1 := match d.tickets with
    | some ts => { s with tickets := ts }
    | none => s
  match d.orders with
  | some os => { s1 with orders := os }
  | none => s1

/-- Python `BookingSystem.load_data` (console variant): loads `users.pkl` if
present; if `admins.pkl` is present loads it, otherwise — and only when
the in-memory admin table is empty — creates the hardcoded default admin
via `create_admin` (which also saves). The whole body runs inside one
`try`: when `create_admin` raises (a user named `admin` already exists),
the exception is caught, the method returns `False`, and the tickets and
orders snapshots are never loaded. Otherwise it finishes loading and
returns `True`. -/
def load_data (d : DiskState) (s0 : BookingState) : Bool × BookingState × DiskState :=
  let s1 := match d.users with
    | some us => { s0 with users := us }
    | none => s0
  match d.admins with
  | some admins => (true, loadTicketsOrders { s1 with admins := admins } d, d)
  | none =>
    if s1.admins = [] then
      match create_admin s1 d "ADM-001" "admin" "admin123" "admin@grandprix.com"
          3 "System Administration" with
      | .error _ => (false, s1, d)
      | .ok (_, s2, d2) => (true, loadTicketsOrders s2 d2, d2)
    else (true, loadTicketsOrders s1 d, d)

/-- Python `BookingSystem.__init__` from the point of view of the collections: a
fresh system starts with every collection empty and immediately runs
`load_data`. -/
def BookingSystem.init (d : DiskState) : Bool × BookingState × DiskState :=
  load_data d BookingState.empty

end classes

/-! ## The GUI variant (`grand_prix_admin_gui.py`)

The admin GUI file carries its own full copy of the domain model. Its
enums and `PyDate` usage are textually identical to the console file, so
those types are shared above; the classes below are re-embedded from the
GUI file's own method bodies. The one structural divergence: the GUI
`Ticket` base class is concrete, with `calculate_price` returning the raw
base price, so a GUI ticket has a third, undifferentiated kind. -/

namespace gui

/-- Ticket variants of the GUI file: the concrete base class plus the two
subclasses. -/
inductive TicketKind
  | base
  | singleRace (race_name : String) (race_category : RaceCategory)
  | season (season_year : Int) (included_races : List String) (race_dates : List PyDate)
deriving DecidableEq, Repr

/-- State of a GUI ticket object (fields as in the GUI file's
`Ticket.__init__` plus the subclass payload). -/
structure Ticket where
  ticket_id : String
  price : ℚ
  event_date : PyDate
  venue_section : String
  is_used : Bool
  created_by : Option String
  kind : TicketKind
deriving DecidableEq, Repr

/-- Python `calculate_price` in the GUI file: the base class returns the price
unchanged; the subclass overrides are textually identical to the console
ones. -/
def Ticket.calculate_price (t : Ticket) : ℚ :=
  match t.kind with
  | .base => t.price
  | .singleRace _ race_category =>
    match race_category with
    | .premium => t.price * 1.2
    | .standard => t.price
    | .economy => t.price * 0.9
  | .season _ included_races _ =>
    let num_races := included_races.length
    if num_races ≥ 15 then t.price * 0.7
    else if num_races ≥ 10 then t.price * 0.8
    else if num_races ≥ 5 then t.price * 0.9
    else t.price

/-- State of a GUI `Order` object (same fields as the console one). -/
structure Order where
  order_id : String
  order_date : PyDate
  status : OrderStatus
  total_amount : ℚ
  payment_method : Option PaymentMethod
  tickets : List Ticket
  user_id : Option String
deriving DecidableEq, Repr

/-- GUI `Order.calculate_total`: same body as the console one. -/
def Order.calculate_total (o : Order) : ℚ :=
  (o.tickets.map Ticket.calculate_price).sum

/-- GUI `Order.add_ticket`: same body as the console one. -/
def Order.add_ticket (o : Order) (t : Ticket) : Except String Order :=
  if o.status = .confirmed then .error "Cannot add tickets to a confirmed order"
  else
    let o2 := { o with tickets := o.tickets ++ [t] }
    .ok { o2 with total_amount := o2.calculate_total }

/-- First-match removal for GUI tickets (same loop as the console one). -/
def removeFirstById : List Ticket → String → Option (List Ticket)
  | [], _ => none
  | t :: ts, tid =>
    if t.ticket_id = tid then some ts
    else (removeFirstById ts tid).map (t :: ·)

/-- GUI `Order.remove_ticket`: same body as the console one. -/
def Order.remove_ticket (o : Order) (ticket_id : String) : Bool × Order :=
  if o.status = .confirmed then (false, o)
  else
    match removeFirstById o.tickets ticket_id with
    | some ts =>
      let o2 := { o with tickets := ts }
      (true, { o2 with total_amount := o2.calculate_total })
    | none => (false, o)

/-- GUI `Order.confirm_order`: same body as the console one. -/
def Order.confirm_order (o : Order) : Bool × Order :=
  if o.tickets = [] then (false, o)
  else if o.payment_method = none then (false, o)
  else (true, { o with status := .confirmed })

/-- GUI `Order.cancel_order`: same body as the console one. -/
def Order.cancel_order (o : Order) (today : PyDate) : Bool × Order :=
  if o.tickets.any (fun t => t.is_used) then (false, o)
  else if o.tickets.any (fun t => PyDate.ltb t.event_date today) then (false, o)
  else (true, { o with status := .cancelled })

end gui

/-! ## Relating the two copies -/

/-- Injection of console tickets into GUI tickets (the console variants
are exactly the GUI variants minus the concrete base kind). -/
def ticketToGui (t : classes.Ticket) : gui.Ticket :=
  { ticket_id := t.ticket_id, price := t.price, event_date := t.event_date,
    venue_section := t.venue_section, is_used := t.is_used, created_by := t.created_by,
    kind := match t.kind with
      | .singleRace n c => .singleRace n c
      | .season y rs ds => .season y rs ds }

/-- Injection of console orders into GUI orders, ticket by ticket. -/
def orderToGui (o : classes.Order) : gui.Order :=
  { order_id := o.order_id, order_date := o.order_date, status := o.status,
    total_amount := o.total_amount, payment_method := o.payment_method,
    tickets := o.tickets.map ticketToGui, user_id := o.user_id }

/-! ## Call sequences and sample objects used in the statements -/

/-- A single ticket-membership call on an order (the two operations the
total-amount invariant quantifies over). -/
inductive OrderOp
  | add (t : classes.Ticket)
  | remove (ticket_id : String)

/-- Run one membership call, keeping the current order when the call
fails (`add_ticket` on a confirmed order raises; the caller's order is
unchanged). -/
def applyOp (o : classes.Order) (op : OrderOp) : classes.Order :=
  match op with
  | .add t =>
    match o.add_ticket t with
    | .ok o2 => o2
    | .error _ => o
  | .remove tid => (o.remove_ticket tid).2

/-- Any one of the four public `Order` operations, for the state-machine
claims. -/
inductive OrderAction
  | add (t : classes.Ticket)
  | remove (ticket_id : String)
  | confirm
  | cancel (today : PyDate)

/-- Run one `Order` operation, keeping the order component of the result
(a failing call leaves the order as it was). -/
def applyAction (o : classes.Order) (a : OrderAction) : classes.Order :=
  match a with
  | .add t =>
    match o.add_ticket t with
    | .ok o2 => o2
    | .error _ => o
  | .remove tid => (o.remove_ticket tid).2
  | .confirm => (o.confirm_order).2
  | .cancel today => (o.cancel_order today).2

/-- The total-amount invariant of an order: the stored total equals the
sum of `calculate_price()` over the member tickets. -/
def totalInvariant (o : classes.Order) : Prop :=
  o.total_amount = (o.tickets.map classes.Ticket.calculate_price).sum

instance (o : classes.Order) : Decidable (totalInvariant o) := by
  unfold totalInvariant; infer_instance

/-- A sample unused ticket dated 2026-06-01. -/
def exFutureTicket : classes.Ticket :=
  classes.SingleRaceTicket.init "T-1" 100 ⟨2026, 6, 1⟩ "Main Grandstand" "Monaco" .standard

/-- A sample confirmed order holding `exFutureTicket`, paid by credit
card. -/
def exConfirmedOrder : classes.Order :=
  { order_id := "ORD-1", order_date := ⟨2026, 1, 1⟩, status := .confirmed,
    total_amount := 100, payment_method := some .credit_card,
    tickets := [exFutureTicket], user_id := none }

/-- A pending order constructed with a stale total: `Order("ORD-1", d,
OrderStatus.PENDING, 5.0)` has no tickets but total 5. -/
def exStaleOrder : classes.Order :=
  classes.Order.init "ORD-1" ⟨2026, 1, 1⟩ .pending 5 none

/-- A fresh pending order with all-default fields. -/
def exFreshOrder : classes.Order :=
  classes.Order.init "ORD-1" ⟨2026, 1, 1⟩

/-- The hardcoded default admin record created by `load_data` when no
admins snapshot exists. -/
def defaultAdminRec : UserRec :=
  UserRec.init "ADM-001" "admin" "admin123" "admin@grandprix.com" none
    (some (3, "System Administration"))

/-- A data directory holding an admins snapshot whose mapping is empty,
and nothing else. -/
def exEmptyAdminsDisk : classes.DiskState :=
  { users := none, admins := some [], tickets := none, orders := none }

/-- A claim-side reading of "no admin data is found" in the initial
on-disk state: the admins snapshot either does not exist or holds no
admins. -/
def noAdminDataOnDisk (d : classes.DiskState) : Prop :=
  d.admins = none ∨ d.admins = some []

/-! ## Theorems -/

/-- Claim C1: for every `SingleRaceTicket` with base price P,
`calculate_price()` returns 1.2·P when the race category is Premium, P
when Standard, and 0.9·P when Economy; and for every `SeasonTicket` with
base price P and n included races it returns 0.7·P when n ≥ 15, 0.8·P
when 10 ≤ n < 15, 0.9·P when 5 ≤ n < 10, and P when n < 5 (so zero
included races gives no discount). -/
theorem calculate_price_formulas (t : classes.Ticket) :
    (∀ name, t.kind = .singleRace name .premium → t.calculate_price = 1.2 * t.price) ∧
    (∀ name, t.kind = .singleRace name .standard → t.calculate_price = t.price) ∧
    (∀ name, t.kind = .singleRace name .economy → t.calculate_price = 0.9 * t.price) ∧
    (∀ year races dates, t.kind = .season year races dates →
      (15 ≤ races.length → t.calculate_price = 0.7 * t.price) ∧
      (10 ≤ races.length ∧ races.length < 15 → t.calculate_price = 0.8 * t.price) ∧
      (5 ≤ races.length ∧ races.length < 10 → t.calculate_price = 0.9 * t.price) ∧
      (races.length < 5 → t.calculate_price = t.price)) := by
  refine ⟨fun name h => ?_, fun name h => ?_, fun name h => ?_,
    fun year races dates h => ?_⟩
  · simp [classes.Ticket.calculate_price, h]; ring
  · simp [classes.Ticket.calculate_price, h]
  · simp [classes.Ticket.calculate_price, h]; ring
  · refine ⟨fun h15 => ?_, fun h10 => ?_, fun h5 => ?_, fun h0 => ?_⟩ <;>
      simp only [classes.Ticket.calculate_price, h]
    · rw [if_pos (by omega)]; ring
    · rw [if_neg (by omega), if_pos (by omega)]; ring
    · rw [if_neg (by omega), if_neg (by omega), if_pos (by omega)]; ring
    · rw [if_neg (by omega), if_neg (by omega), if_neg (by omega)]

/-- Witness for C1: a Standard single-race ticket sells at its base
price, and a 5-race season ticket at 0.9 times its base price. -/
theorem calculate_price_formulas_witness :
    exFutureTicket.calculate_price = exFutureTicket.price ∧
    (classes.SeasonTicket.init "S-1" 100 ⟨2026, 1, 1⟩ "Main Grandstand" 2026
        ["a", "b", "c", "d", "e"] []).calculate_price
      = 0.9 * (classes.SeasonTicket.init "S-1" 100 ⟨2026, 1, 1⟩ "Main Grandstand" 2026
        ["a", "b", "c", "d", "e"] []).price :=
  ⟨(calculate_price_formulas exFutureTicket).2.1 "Monaco" rfl,
   ((calculate_price_formulas _).2.2.2 2026 ["a", "b", "c", "d", "e"] [] rfl).2.2.1
     (by decide)⟩

/-- Claim C2: `confirm_order()` succeeds exactly when the ticket list is
non-empty and a payment method is set; on success only the status
changes, to Confirmed; on failure the order is returned unchanged (and
nothing is raised: the operation is total). -/
theorem confirm_order_spec (o : classes.Order) :
    o.confirm_order =
      if o.tickets ≠ [] ∧ o.payment_method ≠ none
      then (true, { o with status := .confirmed })
      else (false, o) := by
  unfold classes.Order.confirm_order
  by_cases h1 : o.tickets = [] <;> by_cases h2 : o.payment_method = none <;>
    simp [h1, h2]

/-- Claim C3: `cancel_order()` fails and leaves the order unchanged when
some member ticket is used or has an event date strictly before the
current date; otherwise (in particular on an order with no tickets) it
sets the status to Cancelled and succeeds. -/
theorem cancel_order_spec (o : classes.Order) (today : PyDate) :
    o.cancel_order today =
      if (∃ t ∈ o.tickets, t.is_used = true) ∨
         (∃ t ∈ o.tickets, PyDate.ltb t.event_date today = true)
      then (false, o)
      else (true, { o with status := .cancelled }) := by
  unfold classes.Order.cancel_order
  by_cases h1 : ∃ t ∈ o.tickets, t.is_used = true <;>
    by_cases h2 : ∃ t ∈ o.tickets, PyDate.ltb t.event_date today = true <;>
    simp [List.any_eq_true, h1, h2]

/-- One membership call keeps the total-amount invariant: both successful
paths recompute the total as `calculate_total`, and both failure paths
leave the order untouched. -/
theorem applyOp_totalInvariant (o : classes.Order) (op : OrderOp)
    (h : totalInvariant o) : totalInvariant (applyOp o op) := by
  unfold totalInvariant at h ⊢
  cases op with
  | add t =>
    unfold applyOp classes.Order.add_ticket
    by_cases hc : o.status = .confirmed <;>
      simp [hc, totalInvariant, classes.Order.calculate_total, h]
  | remove tid =>
    unfold applyOp classes.Order.remove_ticket
    by_cases hc : o.status = .confirmed
    · simpa [hc, totalInvariant] using h
    · simp only [hc, if_false, if_neg]
      cases hr : classes.removeFirstById o.tickets tid <;>
        simp [totalInvariant, classes.Order.calculate_total, h]

/-- Membership calls never change the status field. -/
theorem applyOp_status (o : classes.Order) (op : OrderOp) :
    (applyOp o op).status = o.status := by
  cases op with
  | add t =>
    unfold applyOp classes.Order.add_ticket
    by_cases hc : o.status = .confirmed <;> simp [hc]
  | remove tid =>
    unfold applyOp classes.Order.remove_ticket
    by_cases hc : o.status = .confirmed
    · simp [hc]
    · simp only [hc, if_false, if_neg]
      cases hr : classes.removeFirstById o.tickets tid <;> simp

/-- Counterexample to claim C4 as stated: `Order("ORD-1", date,
OrderStatus.PENDING, 5.0)` is a non-Confirmed order (with no tickets and
a stale total of 5); the one-call sequence `remove_ticket("T-9")` fails
without recomputing, so immediately after that call the total (5) is not
the sum of the member tickets' prices (0). -/
theorem total_matches_sum_cex :
    exStaleOrder.status ≠ .confirmed ∧
    (exStaleOrder.remove_ticket "T-9").2.total_amount ≠
      ((exStaleOrder.remove_ticket "T-9").2.tickets.map classes.Ticket.calculate_price).sum := by
  decide

/-- Claim C4, amended: for every non-Confirmed order whose total amount
equals the sum of `calculate_price()` over its tickets (as holds for
every freshly created order), after each call of every finite sequence
of `add_ticket`/`remove_ticket` calls the total amount again equals that
sum. (The amendment adds the initial-state side condition: a failed
`remove_ticket` does not recompute, so an order constructed with a stale
total keeps it.) -/
theorem total_matches_sum (o : classes.Order) (h : o.status ≠ .confirmed)
    (hinv : totalInvariant o) (ops : List OrderOp) :
    totalInvariant (ops.foldl applyOp o) := by
  induction ops generalizing o with
  | nil => exact hinv
  | cons op ops ih =>
    exact ih (applyOp o op) (by rw [applyOp_status]; exact h)
      (applyOp_totalInvariant o op hinv)

/-- Witness for the amended C4: a fresh pending order taken through an
add followed by a failed remove and a successful remove satisfies the
invariant. -/
theorem total_matches_sum_witness :
    totalInvariant
      ([OrderOp.add exFutureTicket, OrderOp.remove "T-9", OrderOp.remove "T-1"].foldl
        applyOp exFreshOrder) :=
  total_matches_sum exFreshOrder (by decide) (by decide) _

/-- Claim C5: on a Confirmed order, `add_ticket` raises and
`remove_ticket` returns `False` for every ticket id; in both cases the
order (its ticket list and total amount included) is unchanged. -/
theorem confirmed_order_immutable (o : classes.Order) (h : o.status = .confirmed) :
    (∀ t, o.add_ticket t = .error "Cannot add tickets to a confirmed order") ∧
    (∀ ticket_id, o.remove_ticket ticket_id = (false, o)) := by
  constructor <;> intro x <;>
    simp [classes.Order.add_ticket, classes.Order.remove_ticket, h]

/-- Witness for C5: the sample confirmed order refuses an add (raising)
and a remove (returning `False`), unchanged both times. -/
theorem confirmed_order_immutable_witness :
    exConfirmedOrder.add_ticket exFutureTicket =
      .error "Cannot add tickets to a confirmed order" ∧
    exConfirmedOrder.remove_ticket "T-1" = (false, exConfirmedOrder) :=
  ⟨(confirmed_order_immutable exConfirmedOrder rfl).1 exFutureTicket,
   (confirmed_order_immutable exConfirmedOrder rfl).2 "T-1"⟩

/-- Claim C6 concerns a code bug: `BookingSystem.create_user` on a fresh
system accepts the 5-character password "short" — the user is created
and stored with that password, because `User.__init__` assigns the field
directly and never runs the length check — while the very same check
lives in `User.set_password`, which rejects "short". The spec's
password-length rejection therefore does not happen on the creation
path. -/
theorem create_user_accepts_short_password :
    ((classes.create_user classes.BookingState.empty classes.DiskState.empty
        "U-2" "bob" "short" "bob@example.com" none).toOption.map
      (fun r => r.1.password)) = some "short" ∧
    "short".length < 6 ∧
    (UserRec.init "U-2" "bob" "short" "bob@example.com" none).set_password "short"
      = .error "Password must be at least 6 characters long" := by
  refine ⟨rfl, by decide, rfl⟩

/-- Counterexample to claim C7 as stated: the public factory
`Admin.create_ticket` (and through it the `SingleRaceTicket`
constructor) accepts the base price −1 without validation and returns a
ticket whose stored base price is the negative number −1. -/
theorem nonnegative_price_cex :
    ((classes.Admin.create_ticket "ADM-001" "SingleRace" "T-1" (-1) ⟨2026, 5, 1⟩
        "Main Grandstand" (some "Monaco")).toOption.map
      (fun t => t.price)) = some (-1) ∧
    ((-1 : ℚ) < 0) := by
  exact ⟨rfl, by norm_num⟩

/-- Claim C7, amended: `set_price` with a negative argument raises (so
the stored price is unchanged), and with a non-negative argument stores
it; but the `Ticket` constructors and the `Admin.create_ticket` factory
perform no price validation, so a ticket with a negative base price is
obtainable through the public operations. -/
theorem set_price_validates (t : classes.Ticket) (price : ℚ) :
    (price < 0 → t.set_price price = .error "Price cannot be negative") ∧
    (0 ≤ price → t.set_price price = .ok { t with price := price }) := by
  constructor <;> intro h <;> simp [classes.Ticket.set_price, h, not_lt.mpr]

/-- Witness for the amended C7: setting −1 on the sample ticket raises,
setting 120 stores 120. -/
theorem set_price_validates_witness :
    exFutureTicket.set_price (-1) = .error "Price cannot be negative" ∧
    exFutureTicket.set_price 120 = .ok { exFutureTicket with price := 120 } :=
  ⟨(set_price_validates exFutureTicket (-1)).1 (by norm_num),
   (set_price_validates exFutureTicket 120).2 (by norm_num)⟩

/-- Counterexample to claim C8 as stated: `cancel_order` never inspects
the status, so the sample Confirmed order (one unused ticket dated
2026-06-01, cancelled "today" = 2026-01-01) transitions from Confirmed
to Cancelled and reports success. -/
theorem terminal_status_cex :
    exConfirmedOrder.status = .confirmed ∧
    exConfirmedOrder.cancel_order ⟨2026, 1, 1⟩ =
      (true, { exConfirmedOrder with status := .cancelled }) := by
  decide

/-- One `Order` operation never sets the status back to Pending:
`add_ticket`/`remove_ticket` keep it, `confirm_order` yields Confirmed
or keeps it, `cancel_order` yields Cancelled or keeps it. -/
theorem applyAction_not_pending (o : classes.Order) (a : OrderAction)
    (h : o.status ≠ .pending) : (applyAction o a).status ≠ .pending := by
  cases a with
  | add t =>
    unfold applyAction classes.Order.add_ticket
    by_cases hc : o.status = .confirmed <;> simp [hc, h]
  | remove tid =>
    unfold applyAction classes.Order.remove_ticket
    by_cases hc : o.status = .confirmed
    · simp [hc, h]
    · simp only [hc, if_false, if_neg]
      cases hr : classes.removeFirstById o.tickets tid <;> simp [h]
  | confirm =>
    unfold applyAction classes.Order.confirm_order
    by_cases h1 : o.tickets = [] <;> by_cases h2 : o.payment_method = none <;>
      simp [h1, h2, h]
  | cancel today =>
    unfold applyAction classes.Order.cancel_order
    by_cases h1 : o.tickets.any (fun t => t.is_used) = true <;>
      by_cases h2 : o.tickets.any (fun t => PyDate.ltb t.event_date today) = true <;>
      simp [h1, h2, h]

/-- Claim C8, amended: Confirmed and Cancelled are NOT terminal —
`cancel_order` moves a Confirmed order whose tickets are all unused and
none past-dated to Cancelled, and `confirm_order` moves a Cancelled
order with tickets and a payment method to Confirmed (neither checks the
status). What does hold: Pending is never re-entered — once an order's
status is Confirmed or Cancelled, no sequence of `add_ticket`,
`remove_ticket`, `confirm_order`, `cancel_order` calls ever returns it
to Pending. -/
theorem pending_never_reentered (o : classes.Order) (h : o.status ≠ .pending)
    (acts : List OrderAction) : (acts.foldl applyAction o).status ≠ .pending := by
  induction acts generalizing o with
  | nil => exact h
  | cons a acts ih => exact ih (applyAction o a) (applyAction_not_pending o a h)

/-- Witness for the amended C8: the sample Confirmed order stays
non-Pending through a cancel, a confirm, an add, and a remove. -/
theorem pending_never_reentered_witness :
    ([OrderAction.cancel ⟨2026, 1, 1⟩, OrderAction.confirm,
      OrderAction.add exFutureTicket, OrderAction.remove "T-1"].foldl
        applyAction exConfirmedOrder).status ≠ .pending :=
  pending_never_reentered exConfirmedOrder (by decide) _

/-- Counterexample to claim C9 as stated: a data directory whose admins
snapshot exists but holds an empty mapping provides no admin data, yet
`load_data` takes the file-exists branch, loads the empty table, and
never creates the default admin: the freshly constructed system's admin
table is empty. -/
theorem default_admin_cex :
    noAdminDataOnDisk exEmptyAdminsDisk ∧
    (classes.BookingSystem.init exEmptyAdminsDisk).2.1.admins.lookup "admin" = none := by
  exact ⟨Or.inr rfl, by decide⟩

/-- Claim C9, amended: the default admin (id ADM-001, username admin,
password admin123) is created and persisted exactly on the branch where
the admins snapshot FILE is absent — and creation further requires that
the loaded users table has no entry keyed "admin" (otherwise the
internal `create_admin` raises, `load_data` swallows the exception, and
the admin table stays empty). Under those two conditions the freshly
constructed system's admin table contains the default admin and the
admins snapshot on disk records the same table. An existing-but-empty
admins file suppresses creation entirely. -/
theorem default_admin_created (d : classes.DiskState) (h1 : d.admins = none)
    (h2 : (d.users.getD []).lookup "admin" = none) :
    (classes.BookingSystem.init d).2.1.admins.lookup "admin" = some defaultAdminRec ∧
    (classes.BookingSystem.init d).2.2.admins =
      some (classes.BookingSystem.init d).2.1.admins := by
  unfold classes.BookingSystem.init classes.load_data
  cases hu : d.users with
  | none =>
    rw [hu] at h2
    simp [h1, classes.BookingState.empty, classes.create_admin, h2,
      classes.loadTicketsOrders, classes.save_data, defaultAdminRec]
  | some us =>
    rw [hu] at h2
    simp only [Option.getD] at h2
    simp [h1, classes.BookingState.empty, classes.create_admin, h2,
      classes.loadTicketsOrders, classes.save_data, defaultAdminRec]

/-- Witness for the amended C9: constructing against an empty data
directory yields the default admin in the admin table and on disk. -/
theorem default_admin_created_witness :
    (classes.BookingSystem.init classes.DiskState.empty).2.1.admins.lookup "admin"
      = some defaultAdminRec ∧
    (classes.BookingSystem.init classes.DiskState.empty).2.2.admins =
      some (classes.BookingSystem.init classes.DiskState.empty).2.1.admins :=
  default_admin_created classes.DiskState.empty rfl rfl

/-- Pricing agrees across the two copies: the GUI `calculate_price`
computes the console value on every single-race and season ticket. -/
theorem ticketToGui_calculate_price (t : classes.Ticket) :
    (ticketToGui t).calculate_price = t.calculate_price := by
  cases t with
  | mk tid price ed vs iu cb kind =>
    cases kind with
    | singleRace n c => cases c <;> rfl
    | season y rs ds => rfl

/-- Mapping a ticket to the GUI copy keeps its id. -/
theorem ticketToGui_ticket_id (t : classes.Ticket) :
    (ticketToGui t).ticket_id = t.ticket_id := rfl

/-- First-match removal agrees across the two copies. -/
theorem removeFirstById_toGui (ts : List classes.Ticket) (tid : String) :
    gui.removeFirstById (ts.map ticketToGui) tid =
      (classes.removeFirstById ts tid).map (List.map ticketToGui) := by
  induction ts with
  | nil => rfl
  | cons t ts ih =>
    simp only [List.map_cons, gui.removeFirstById, classes.removeFirstById,
      ticketToGui_ticket_id]
    by_cases h : t.ticket_id = tid
    · simp [h]
    · simp only [h, if_false, if_neg, ih]
      cases classes.removeFirstById ts tid <;> simp

/-- Total computation agrees across the two copies. -/
theorem orderToGui_calculate_total (o : classes.Order) :
    (orderToGui o).calculate_total = o.calculate_total := by
  unfold gui.Order.calculate_total classes.Order.calculate_total orderToGui
  simp only [List.map_map]
  induction o.tickets with
  | nil => rfl
  | cons t ts ih => simp [ih, ticketToGui_calculate_price t]

/-- Scanning embedded tickets with a GUI predicate agrees with scanning
the console tickets with the corresponding console predicate. -/
theorem any_map_toGui (ts : List classes.Ticket) (p : gui.Ticket → Bool)
    (q : classes.Ticket → Bool) (h : ∀ t, p (ticketToGui t) = q t) :
    (ts.map ticketToGui).any p = ts.any q := by
  induction ts with
  | nil => rfl
  | cons t ts ih => simp [h t, ih]

/-- Claim C10: the GUI copy of the domain model is behaviorally
equivalent to the console copy on the shared core — `calculate_price`
agrees on every single-race and season ticket state, and each of
`add_ticket`, `remove_ticket`, `confirm_order`, `cancel_order` returns
the same result and produces the same post-state on every order state
and argument (post-states compared through the embedding of console
orders into GUI orders). -/
theorem gui_console_equivalent :
    (∀ t : classes.Ticket, (ticketToGui t).calculate_price = t.calculate_price) ∧
    (∀ (o : classes.Order) (t : classes.Ticket),
      (orderToGui o).add_ticket (ticketToGui t) = (o.add_ticket t).map orderToGui) ∧
    (∀ (o : classes.Order) (ticket_id : String),
      (orderToGui o).remove_ticket ticket_id =
        ((o.remove_ticket ticket_id).1, orderToGui (o.remove_ticket ticket_id).2)) ∧
    (∀ o : classes.Order,
      (orderToGui o).confirm_order = ((o.confirm_order).1, orderToGui (o.confirm_order).2)) ∧
    (∀ (o : classes.Order) (today : PyDate),
      (orderToGui o).cancel_order today =
        ((o.cancel_order today).1, orderToGui (o.cancel_order today).2)) := by
  refine ⟨ticketToGui_calculate_price, fun o t => ?_, fun o tid => ?_, fun o => ?_,
    fun o today => ?_⟩
  · unfold gui.Order.add_ticket classes.Order.add_ticket
    by_cases hc : o.status = .confirmed
    · simp [orderToGui, hc, Except.map]
    · have hct := orderToGui_calculate_total { o with tickets := o.tickets ++ [t] }
      simp only [orderToGui, List.map_append, List.map_cons, List.map_nil] at hct
      simp only [orderToGui, hc] at hct ⊢
      simp [hct, Except.map, List.map_append, orderToGui]
  · unfold gui.Order.remove_ticket classes.Order.remove_ticket
    by_cases hc : o.status = .confirmed
    · simp [orderToGui, hc]
    · simp only [orderToGui, hc, if_false, if_neg, removeFirstById_toGui]
      cases hr : classes.removeFirstById o.tickets tid with
      | none => simp
      | some ts =>
        have hct := orderToGui_calculate_total { o with tickets := ts }
        simp only [orderToGui] at hct ⊢
        simp [hct]
  · unfold gui.Order.confirm_order classes.Order.confirm_order
    by_cases h1 : o.tickets = [] <;> by_cases h2 : o.payment_method = none <;>
      simp [orderToGui, h1, h2]
  · have e1 : (o.tickets.map ticketToGui).any (fun t => t.is_used) =
        o.tickets.any (fun t => t.is_used) :=
      any_map_toGui o.tickets _ _ (fun t => rfl)
    have e2 : (o.tickets.map ticketToGui).any (fun t => PyDate.ltb t.event_date today) =
        o.tickets.any (fun t => PyDate.ltb t.event_date today) :=
      any_map_toGui o.tickets _ _ (fun t => rfl)
    unfold gui.Order.cancel_order classes.Order.cancel_order
    simp only [orderToGui, e1, e2]
    by_cases h1 : o.tickets.any (fun t => t.is_used) = true <;>
      by_cases h2 : o.tickets.any (fun t => PyDate.ltb t.event_date today) = true <;>
      simp [h1, h2]
